import Mathlib

/-!
Shallow embedding of the live TLS certificate management subsystem of the
`serve` static-file server (src/src/tls.rs, with src/src/main.rs as the
wiring entry point), together with theorems settling the frozen claims
about it.

Conventions of the embedding:
* Rust `Result<(), ServeError>` becomes `Except ServeError Unit`.
* Machine integers are `Nat` with an explicit `% 2 ^ 64` where the Rust
  `u64` arithmetic can wrap (release-mode wrapping multiplication).
* Futures that may run forever are modelled by an explicit
  `ComponentOutcome.runsForever` alternative; `tokio::join!` waits for all
  of its futures, so the joined result is `none` (never returns) unless
  every component terminates.
* The tokio bounded mpsc channel of capacity 1 is modelled as a small
  state machine processed over a list of send/receive events.
-/

namespace Serve

/-- The error enum of src/src/errors.rs (`ServeError`), restricted to the
variants reachable from the TLS subsystem: `Notify` wraps watcher errors,
`Io` wraps certificate/key file and listener I/O errors. Payloads are the
formatted messages. -/
inductive ServeError where
  | notify (msg : String)
  | io (msg : String)
deriving DecidableEq, Repr

/-! ## Orchestrator (`start_tls_server`, src/src/tls.rs lines 41-58)

`start_tls_server` runs `join!` over the TLS serving core, the redirect
listener and the certificate watcher, then propagates errors with
`server?; http_to_https_redirect?; tls_watcher?; Ok(())`. -/

/-- Termination behaviour of one joined component: either it never
terminates (`runsForever`, e.g. a healthy listener) or it terminates with
a `Result`. -/
inductive ComponentOutcome where
  | runsForever
  | terminates (r : Except ServeError Unit)
deriving Repr

/-- The error propagation after `join!` in `start_tls_server`:
`server?; http_to_https_redirect?; tls_watcher?; Ok(())` — the first
`Err` in this fixed textual order is returned. -/
def seqResults (r1 r2 r3 : Except ServeError Unit) : Except ServeError Unit :=
  match r1 with
  | .error e => .error e
  | .ok _ =>
    match r2 with
    | .error e => .error e
    | .ok _ =>
      match r3 with
      | .error e => .error e
      | .ok _ => .ok ()

/-- `start_tls_server` (src/src/tls.rs lines 49-57) after the TLS config
loaded: `tokio::join!` polls all three futures to completion — it returns
a tuple only once the serving core, the redirect listener and the
certificate watcher have ALL terminated — and then applies `seqResults`.
`none` models "the join, hence the function, never returns". -/
def start_tls_server (server redirectListener certWatcher : ComponentOutcome) :
    Option (Except ServeError Unit) :=
  match server, redirectListener, certWatcher with
  | .terminates r1, .terminates r2, .terminates r3 => some (seqResults r1 r2 r3)
  | _, _, _ => none

/-! ## Reload-signal channel (src/src/tls.rs lines 124-165)

`init_certificate_watch` creates `tokio::sync::mpsc::channel(1)`.  The
watcher callback spawns a task running `tx.send(()).await` (lines
132-135) and the retry branch runs `retry_tx.send(()).await` (lines
161-164).  `Sender::send(..).await` on a full bounded channel SUSPENDS
the sender until capacity frees up; it never drops a message.  The
channel is modelled as a state machine over abstract send/receive
events. -/

/-- One scheduler event at the reload-signal channel: a signal submission
(filesystem event or retry resubmission) or a consumption by the
controller's `rx.recv().await`. -/
inductive ChanOp where
  | send
  | recv
deriving DecidableEq, Repr

/-- Observable state of the capacity-1 signal channel: `queued` messages
buffered (at most the capacity), `waiting` senders suspended awaiting
capacity, `received` messages delivered to the controller, and `dropped`
messages discarded (only ever nonzero under the drop-on-full semantics
the spec describes). -/
structure ChanState where
  queued : Nat
  waiting : Nat
  received : Nat
  dropped : Nat
deriving DecidableEq, Repr

/-- Buffer capacity of `tokio::sync::mpsc::channel(1)` (src/src/tls.rs
line 124). -/
def chanCapacity : Nat := 1

/-- The empty channel at startup. -/
def chanInit : ChanState := { queued := 0, waiting := 0, received := 0, dropped := 0 }

/-- Code semantics of `tx.send(()).await`: enqueue when the buffer has
room, otherwise the sending task suspends (joins `waiting`) until the
receiver frees capacity.  Nothing is ever dropped. -/
def sendCode (s : ChanState) : ChanState :=
  if s.queued < chanCapacity then { s with queued := s.queued + 1 }
  else { s with waiting := s.waiting + 1 }

/-- Code semantics of `rx.recv().await`: with an empty buffer the
receiver suspends (no state change at this event); otherwise it consumes
a message, and a suspended sender (if any) immediately fills the freed
buffer slot. -/
def recvCode (s : ChanState) : ChanState :=
  if s.queued = 0 then s
  else if 0 < s.waiting then
    { s with waiting := s.waiting - 1, received := s.received + 1 }
  else
    { s with queued := s.queued - 1, received := s.received + 1 }

/-- One channel event under the code's (awaiting-send) semantics. -/
def stepCode (s : ChanState) : ChanOp → ChanState
  | .send => sendCode s
  | .recv => recvCode s

/-- Run the code's channel over a sequence of events from the empty
channel. -/
def runChanCode (ops : List ChanOp) : ChanState := ops.foldl stepCode chanInit

/-- Modelled from the spec: drop-on-full send semantics ("if the queue
already holds an unconsumed signal, the new one is dropped"), the
semantics the spec attributes to the code's sends.  Kept separate from
`sendCode` so the two behaviours can be compared. -/
def sendSpecDrop (s : ChanState) : ChanState :=
  if s.queued < chanCapacity then { s with queued := s.queued + 1 }
  else { s with dropped := s.dropped + 1 }

/-- Modelled from the spec: receive under drop-on-full semantics (no
suspended senders can exist, so a receive just consumes from the
buffer). -/
def recvSpecDrop (s : ChanState) : ChanState :=
  if s.queued = 0 then s
  else { s with queued := s.queued - 1, received := s.received + 1 }

/-- One channel event under the spec's drop-on-full semantics. -/
def stepSpecDrop (s : ChanState) : ChanOp → ChanState
  | .send => sendSpecDrop s
  | .recv => recvSpecDrop s

/-- Run the spec's drop-on-full channel over a sequence of events from
the empty channel. -/
def runChanSpecDrop (ops : List ChanOp) : ChanState := ops.foldl stepSpecDrop chanInit

/-- Number of send events in a channel event sequence. -/
def countSend : List ChanOp → Nat
  | [] => 0
  | .send :: rest => countSend rest + 1
  | .recv :: rest => countSend rest

/-! ## Reload controller loop (src/src/tls.rs lines 119-169)

`init_certificate_watch` keeps `let mut delay: u64 = 1` (line 123), and
for each received reload signal attempts
`tls_config.reload_from_pem_file(..)`; on `Ok` it resets `delay = 1`, on
`Err(e)` it executes `delay *= 2`, logs the error, sleeps
`Duration::from_millis(delay)` and resubmits a retry signal.  `delay` is
a `u64`, so the doubling wraps modulo `2 ^ 64` (release-mode Rust
wrapping arithmetic). -/

/-- `2 ^ 64`: the modulus of Rust `u64` arithmetic. -/
def u64Mod : Nat := 2 ^ 64

/-- The shared reloadable TLS context (`RustlsConfig`): an abstract
version stamp identifying which certificate/key material is installed. -/
structure TlsCtx where
  version : Nat
deriving DecidableEq, Repr

/-- Outcome of one `reload_from_pem_file` attempt: success installs a
context built from the current file bytes; failure carries the formatted
error message. -/
inductive ReloadOutcome where
  | success (ctx : TlsCtx)
  | failure (msg : String)
deriving DecidableEq, Repr

/-- State of the reload controller loop: the backoff `delay` (u64,
milliseconds), the currently installed TLS context, the sleeps performed
so far (each recorded as its duration in milliseconds, in order), the
reload-error messages logged so far, and whether the last processed
signal resubmitted a retry. -/
structure CtrlState where
  delay : Nat
  ctx : TlsCtx
  sleeps : List Nat
  logged : List String
  retryScheduled : Bool
deriving DecidableEq, Repr

/-- Controller state at loop entry: `delay = 1`, the startup context
installed, nothing slept or logged yet. -/
def initCtrl (c : TlsCtx) : CtrlState :=
  { delay := 1, ctx := c, sleeps := [], logged := [], retryScheduled := false }

/-- One iteration of the `while rx.recv().await.is_some()` body
(src/src/tls.rs lines 146-166): on success install the new context and
reset the delay to 1; on failure double the delay (u64 wrapping), log the
error, sleep for the doubled delay and resubmit a retry signal.  The
installed context is untouched on failure. -/
def controllerStep (s : CtrlState) : ReloadOutcome → CtrlState
  | .success c => { s with delay := 1, ctx := c, retryScheduled := false }
  | .failure m =>
    let d := s.delay * 2 % u64Mod
    { s with delay := d, sleeps := s.sleeps ++ [d], logged := s.logged ++ [m],
             retryScheduled := true }

/-- The controller loop over a finite prefix of reload outcomes. -/
def runController (s : CtrlState) (rs : List ReloadOutcome) : CtrlState :=
  rs.foldl controllerStep s

/-- Backoff delay after `n` consecutive failures starting from the fresh
value 1, under u64 wrapping doubling. -/
def delayAfterFailures : Nat → Nat
  | 0 => 1
  | n + 1 => delayAfterFailures n * 2 % u64Mod

/-- `init_certificate_watch` (src/src/tls.rs lines 119-169): the watcher
construction (`RecommendedWatcher::new`, line 128) and the two watch
registrations (lines 143-144) each propagate failure with `?`; once
registration succeeded the function runs the reload loop and can only
finish with `Ok(())` (line 169) — no arm of the loop returns an error.
The externally determined outcomes of the three registration steps and
the sequence of reload-attempt outcomes are parameters. -/
def init_certificate_watch (watcherNew watchCert watchKey : Except ServeError Unit)
    (ctx0 : TlsCtx) (rs : List ReloadOutcome) : Except ServeError CtrlState :=
  match watcherNew with
  | .error e => .error e
  | .ok _ =>
    match watchCert with
    | .error e => .error e
    | .ok _ =>
      match watchKey with
      | .error e => .error e
      | .ok _ => .ok (runController (initCtrl ctx0) rs)

/-! ## HTTP→HTTPS redirect handler (src/src/tls.rs lines 86-117)

The handler takes the incoming request's URI parts, forces the scheme to
`https`, defaults an absent path-and-query to `/`, rewrites the Host
header with `replace("80", "443")`, parses it as an authority (a parse
failure hits `.expect("host to be valid")`, i.e. a panic), rebuilds the
URI with `Uri::from_parts` (failure ⇒ 400) and answers a permanent (301)
redirect to the rebuilt URI.  Missing Host or Host that is not valid
text ⇒ 400. -/

/-- ASCII codes of a string, for writing raw header bytes. -/
def strBytes (s : String) : List Nat := s.toList.map Char.toNat

/-- `http::HeaderValue::to_str` accepts exactly the visible ASCII bytes
(0x20-0x7E) plus horizontal tab; any other byte makes `to_str` fail. -/
def isVisibleAscii (b : Nat) : Bool := (32 ≤ b && b < 127) || b == 9

/-- `host.to_str()` (src/src/tls.rs line 99) on the raw Host header
bytes: `some` of the decoded characters when every byte is visible
ASCII, `none` when the value is not valid text. -/
def headerToStr (bs : List Nat) : Option (List Char) :=
  if bs.all isVisibleAscii then some (bs.map Char.ofNat) else none

/-- `https_host.replace("80", "443")` (src/src/tls.rs line 106):
Rust `str::replace` with the literal pattern `"80"`, i.e. every
non-overlapping occurrence of `8` followed by `0`, scanned left to
right, becomes `443`. -/
def replace80 : List Char → List Char
  | [] => []
  | [c] => [c]
  | c :: c2 :: rest =>
    if c = '8' ∧ c2 = '0' then '4' :: '4' :: '3' :: replace80 rest
    else c :: replace80 (c2 :: rest)

/-- Characters the `http` crate's `Authority` parser accepts: ASCII
alphanumerics and the sub-delimiters/userinfo/bracket characters.  `/`,
`?`, `#`, space, control bytes and other characters terminate or reject
the authority, so a Host containing them fails `Authority::from_str`.
(The full parser's bracket/colon-count rules are not needed by any input
considered here.) -/
def isAuthorityChar (c : Char) : Bool :=
  (c.isAlphanum && c.toNat < 128) || c == '-' || c == '.' || c == '_' || c == '~' ||
    c == '%' || c == '!' || c == '$' || c == '&' || c == '\'' || c == '(' || c == ')' ||
    c == '*' || c == '+' || c == ',' || c == ';' || c == '=' || c == ':' || c == '@' ||
    c == '[' || c == ']'

/-- `https_host.parse::<Authority>()` (src/src/tls.rs line 107) viewed
as a validity check: the parse succeeds iff the string is nonempty and
every character is an authority character. -/
def validAuthority (s : List Char) : Bool := !s.isEmpty && s.all isAuthorityChar

/-- `Uri::from_parts` (src/src/tls.rs line 111): with the scheme,
authority and path-and-query all present — which the handler guarantees,
having just set all three — the URI is rebuilt as
`scheme "://" authority path_and_query`; with the scheme present but the
authority or the path-and-query missing, `from_parts` fails (`none`). -/
def uriFromParts (scheme : List Char) (authority : Option (List Char))
    (pathAndQuery : Option (List Char)) : Option (List Char) :=
  match authority, pathAndQuery with
  | some a, some p => some (scheme ++ ("://".toList) ++ a ++ p)
  | _, _ => none

/-- An incoming request as the handler sees it: the URI of an
origin-form plaintext request carries only an optional path-and-query
(`req.uri()`), and the Host header is either absent or a raw byte
sequence. -/
structure Request where
  pathAndQuery : Option (List Char)
  hostHeader : Option (List Nat)
deriving DecidableEq, Repr

/-- What the handler produces: an HTTP response with a status and an
optional `Location` header, or a panic (a Rust `expect` firing) with its
message. -/
inductive HttpResponse where
  | response (status : Nat) (location : Option (List Char))
  | panicked (msg : String)
deriving DecidableEq, Repr

/-- The `redirect` handler of src/src/tls.rs lines 86-117, step by step:
force the scheme to HTTPS; default a missing path-and-query to `/`
(lines 90-92); 400 with empty body when the Host header is absent (lines
94-97) or not valid text (lines 99-102); rewrite the host with
`replace("80", "443")` and parse it as the new authority, panicking via
`.expect("host to be valid")` when the parse fails (lines 104-109); 400
when `Uri::from_parts` fails (lines 111-114); otherwise
`Redirect::permanent(destination)` (line 116) — axum's `Redirect::permanent`
responds with `StatusCode::PERMANENT_REDIRECT`, i.e. status 308, and the
rebuilt absolute URI as the `Location` header. -/
def redirect (req : Request) : HttpResponse :=
  let pq : List Char := match req.pathAndQuery with
    | none => ['/']
    | some p => p
  match req.hostHeader with
  | none => .response 400 none
  | some bytes =>
    match headerToStr bytes with
    | none => .response 400 none
    | some host =>
      let httpsHost := replace80 host
      if validAuthority httpsHost then
        match uriFromParts ("https".toList) (some httpsHost) (some pq) with
        | none => .response 400 none
        | some destination => .response 308 (some destination)
      else
        .panicked "host to be valid"

/-! ## Redirect listener bring-up (src/src/tls.rs lines 60-84) -/

/-- Observable outcome of `init_http_to_https_redirect`: whether the
plaintext listener was started and on which port, whether the
"redirect enabled but HTTPS port is not 443" diagnostic was logged, and
the function's `Result`. -/
structure RedirectInit where
  listenerStarted : Bool
  boundPort : Option Nat
  diagnosticLogged : Bool
  result : Except ServeError Unit

/-- `init_http_to_https_redirect` (src/src/tls.rs lines 60-84): when
redirect was requested and the HTTPS port is 443, bind a listener on
port 80 of the same address and serve the redirect handler (its
termination result, normally "runs forever", is the external parameter
`serveOutcome` and is propagated with `?`); when redirect was requested
on another port, log an error diagnostic and fall through; in every
non-serving path return `Ok(())`. -/
def init_http_to_https_redirect (should_redirect : Bool) (port : Nat)
    (serveOutcome : Except ServeError Unit) : RedirectInit :=
  if should_redirect && port == 443 then
    { listenerStarted := true, boundPort := some 80, diagnosticLogged := false,
      result := match serveOutcome with
        | .error e => .error e
        | .ok _ => .ok () }
  else if should_redirect && !(port == 443) then
    { listenerStarted := false, boundPort := none, diagnosticLogged := true,
      result := .ok () }
  else
    { listenerStarted := false, boundPort := none, diagnosticLogged := false,
      result := .ok () }

/-! ## Spec-side definition for the authority rewrite

The spec describes the authority rewrite as "every occurrence of the
literal substring `80` replaced by `443`, a textual replace".  The
generic left-to-right literal-substring replacement below follows those
words, to be compared with the source's `replace80`. -/

/-- Replace every non-overlapping occurrence of the literal substring
`pat` in `s` by `rep`, scanning left to right; stated generically, from
the spec's words. -/
def replaceAllSpec (pat rep : List Char) : List Char → List Char
  | [] => []
  | c :: rest =>
    if h : pat ≠ [] ∧ pat.isPrefixOf (c :: rest) then
      rep ++ replaceAllSpec pat rep ((c :: rest).drop pat.length)
    else
      c :: replaceAllSpec pat rep rest
termination_by s => s.length
decreasing_by
· simp only [List.length_drop, List.length_cons]
  have hp : 0 < pat.length := List.length_pos.mpr h.1
  omega
· simp only [List.length_cons]
  omega

/-- The source's specialized `replace80` computes exactly the spec's
generic "replace every occurrence of the literal substring 80 by 443". -/
theorem replace80_eq_replaceAllSpec :
    ∀ s : List Char, replace80 s = replaceAllSpec ['8', '0'] ['4', '4', '3'] s
  | [] => by simp [replace80, replaceAllSpec]
  | [c] => by
    by_cases h8 : c = '8'
    · subst h8
      simp [replace80, replaceAllSpec, List.isPrefixOf]
    · simp [replace80, replaceAllSpec, List.isPrefixOf, h8]
  | c :: c2 :: rest => by
    by_cases h8 : c = '8' ∧ c2 = '0'
    · obtain ⟨rfl, rfl⟩ := h8
      have ih := replace80_eq_replaceAllSpec rest
      simp [replace80, replaceAllSpec, List.isPrefixOf, ih]
    · have ih := replace80_eq_replaceAllSpec (c2 :: rest)
      have hpre : (['8', '0'] : List Char).isPrefixOf (c :: c2 :: rest) = false := by
        rcases not_and_or.mp h8 with hc | hc2
        · simp [List.isPrefixOf, hc, Ne.symm hc]
        · simp [List.isPrefixOf, hc2, Ne.symm hc2]
      rw [replace80, if_neg h8, replaceAllSpec, dif_neg (by simp [hpre]), ih]

/-! ## Helper lemmas -/

/-- The backoff delay after `n` consecutive failures is `2 ^ n` reduced
modulo `2 ^ 64`. -/
theorem delayAfterFailures_eq (n : Nat) : delayAfterFailures n = 2 ^ n % u64Mod := by
  induction n with
  | zero => decide
  | succ n ih =>
    rw [delayAfterFailures, ih, pow_succ, Nat.mul_mod]
    norm_num [u64Mod]

/-- Running the controller over `n` consecutive failures leaves the
backoff delay at `delayAfterFailures n`. -/
theorem runController_replicate_delay (c : TlsCtx) (m : String) :
    ∀ n : Nat,
      (runController (initCtrl c) (List.replicate n (ReloadOutcome.failure m))).delay
        = delayAfterFailures n := by
  intro n
  induction n with
  | zero => rfl
  | succ n ih =>
    rw [List.replicate_succ']
    unfold runController at ih ⊢
    rw [List.foldl_append]
    simp only [List.foldl_cons, List.foldl_nil, controllerStep]
    rw [ih]
    rfl

/-- After at least one consecutive failure, the duration of the last
backoff sleep equals the current delay (the loop sleeps for the freshly
doubled delay). -/
theorem runController_replicate_sleeps (c : TlsCtx) (m : String) :
    ∀ n : Nat, 1 ≤ n →
      (runController (initCtrl c) (List.replicate n (ReloadOutcome.failure m))).sleeps.getLast?
        = some ((runController (initCtrl c) (List.replicate n (ReloadOutcome.failure m))).delay) := by
  intro n hn
  obtain ⟨k, rfl⟩ : ∃ k, n = k + 1 := ⟨n - 1, by omega⟩
  rw [List.replicate_succ']
  unfold runController
  rw [List.foldl_append]
  simp only [List.foldl_cons, List.foldl_nil, controllerStep]
  rw [List.getLast?_concat]

/-- The code's channel never drops a message, whatever the starting
state. -/
theorem foldl_stepCode_dropped :
    ∀ (ops : List ChanOp) (s : ChanState), (ops.foldl stepCode s).dropped = s.dropped := by
  intro ops
  induction ops with
  | nil => intro s; rfl
  | cons o rest ih =>
    intro s
    rw [List.foldl_cons, ih]
    cases o
    · simp only [stepCode, sendCode]
      split_ifs <;> rfl
    · simp only [stepCode, recvCode]
      split_ifs <;> rfl

/-- Conservation for the code's channel: buffered plus suspended plus
delivered messages grow exactly by the number of send events. -/
theorem foldl_stepCode_sum :
    ∀ (ops : List ChanOp) (s : ChanState),
      (ops.foldl stepCode s).queued + (ops.foldl stepCode s).waiting
          + (ops.foldl stepCode s).received
        = s.queued + s.waiting + s.received + countSend ops := by
  intro ops
  induction ops with
  | nil => intro s; rfl
  | cons o rest ih =>
    intro s
    rw [List.foldl_cons, ih]
    cases o
    · simp only [stepCode, sendCode, countSend]
      split_ifs <;> simp <;> omega
    · simp only [stepCode, recvCode, countSend]
      split_ifs with h1 h2 <;> simp <;> omega

/-! ## Claims -/

/-- Claim C1, counterexample: the certificate watcher terminates with an
error (e.g. a watch-registration failure) while the TLS serving core and
the not-started redirect listener keep running; `tokio::join!` keeps
polling the still-running futures, so `start_tls_server` never returns —
the watcher's error is not surfaced as its result and the process keeps
running with the failed component absent. -/
theorem C1_counterexample :
    start_tls_server ComponentOutcome.runsForever ComponentOutcome.runsForever
      (ComponentOutcome.terminates (Except.error (ServeError.notify "watch registration failed")))
      = none := rfl

/-- Claim C1 (amended): `start_tls_server` returns exactly when all
three joined components have terminated, and then surfaces the first
error in the fixed order (TLS serving core, redirect listener,
certificate watcher) as its result, with which the process exits
non-zero; while any component still runs, it does not return, even if
another component has already terminated with an error. -/
theorem C1_join_awaits_all_then_first_error :
    (∀ r1 r2 r3 : Except ServeError Unit,
        start_tls_server (ComponentOutcome.terminates r1) (ComponentOutcome.terminates r2)
          (ComponentOutcome.terminates r3) = some (seqResults r1 r2 r3))
  ∧ (∀ (e : ServeError) (r2 r3 : Except ServeError Unit),
        seqResults (Except.error e) r2 r3 = Except.error e)
  ∧ (∀ (e : ServeError) (r3 : Except ServeError Unit),
        seqResults (Except.ok ()) (Except.error e) r3 = Except.error e)
  ∧ (∀ e : ServeError, seqResults (Except.ok ()) (Except.ok ()) (Except.error e) = Except.error e)
  ∧ (∀ rl cw : ComponentOutcome, start_tls_server ComponentOutcome.runsForever rl cw = none)
  ∧ (∀ sv cw : ComponentOutcome, start_tls_server sv ComponentOutcome.runsForever cw = none)
  ∧ (∀ sv rl : ComponentOutcome, start_tls_server sv rl ComponentOutcome.runsForever = none) := by
  refine ⟨fun r1 r2 r3 => rfl, fun e r2 r3 => rfl, fun e r3 => rfl, fun e => rfl, ?_, ?_, ?_⟩
  · intro rl cw
    cases rl <;> cases cw <;> rfl
  · intro sv cw
    cases sv <;> cases cw <;> rfl
  · intro sv rl
    cases sv <;> cases rl <;> rfl

/-- Claim C2, counterexample: on the event sequence send, send, recv,
recv (two filesystem signals in quick succession, then the controller
consumes twice), the code's awaiting-send channel delivers BOTH signals
and drops none, whereas the drop-on-full queue the claim describes would
have dropped the second send and delivered only one. -/
theorem C2_counterexample :
    (runChanCode [ChanOp.send, ChanOp.send, ChanOp.recv, ChanOp.recv]).received = 2
  ∧ (runChanCode [ChanOp.send, ChanOp.send, ChanOp.recv, ChanOp.recv]).dropped = 0
  ∧ (runChanSpecDrop [ChanOp.send, ChanOp.send, ChanOp.recv, ChanOp.recv]).received = 1
  ∧ (runChanSpecDrop [ChanOp.send, ChanOp.send, ChanOp.recv, ChanOp.recv]).dropped = 1 := by
  decide

/-- Claim C2 (amended): every enqueue onto the capacity-1 reload-signal
queue is an awaiting send, not a drop-on-full: for every sequence of
events, no submitted signal is ever dropped — each send either buffers
its signal or suspends the sending task until capacity frees, so at any
point the submitted signals are exactly the buffered ones plus the
suspended ones plus the delivered ones.  (The filesystem callback itself
stays non-blocking because the send runs in a spawned task.) -/
theorem C2_send_awaits_never_drops :
    ∀ ops : List ChanOp,
      (runChanCode ops).dropped = 0
    ∧ (runChanCode ops).queued + (runChanCode ops).waiting + (runChanCode ops).received
        = countSend ops := by
  intro ops
  constructor
  · exact foldl_stepCode_dropped ops chanInit
  · have h := foldl_stepCode_sum ops chanInit
    simpa [chanInit] using h

/-- Claim C3, counterexample: after 64 consecutive reload failures the
u64 delay has wrapped to 0 — the sleep before the 65th attempt is 0
milliseconds, not the `2 ^ 64` milliseconds the unrestricted claim
demands. -/
theorem C3_counterexample :
    (runController (initCtrl ⟨0⟩)
        (List.replicate 64 (ReloadOutcome.failure "certificate parse error"))).delay = 0
  ∧ (0 : Nat) ≠ 2 ^ 64 := by
  exact ⟨by decide, by decide⟩

/-- Claim C3 (amended): for every `N` with `1 ≤ N ≤ 63`, after `N`
consecutive reload failures the backoff delay — which is also the
duration of the sleep just performed before the `(N+1)`-th attempt,
since the loop doubles the delay and then sleeps for it — equals `2 ^ N`
times the 1-millisecond base; for `N ≥ 64` the u64 doubling has wrapped.
One successful reload resets the delay to 1. -/
theorem C3_backoff_doubles_up_to_63 :
    (∀ (c : TlsCtx) (m : String) (N : Nat), 1 ≤ N → N ≤ 63 →
        (runController (initCtrl c) (List.replicate N (ReloadOutcome.failure m))).delay = 2 ^ N
      ∧ (runController (initCtrl c) (List.replicate N (ReloadOutcome.failure m))).sleeps.getLast?
          = some (2 ^ N))
  ∧ (∀ (s : CtrlState) (c : TlsCtx), (controllerStep s (ReloadOutcome.success c)).delay = 1) := by
  constructor
  · intro c m N h1 h63
    have hd : (runController (initCtrl c) (List.replicate N (ReloadOutcome.failure m))).delay
        = 2 ^ N := by
      rw [runController_replicate_delay, delayAfterFailures_eq]
      exact Nat.mod_eq_of_lt (Nat.pow_lt_pow_right (by norm_num) (by omega))
    exact ⟨hd, by rw [runController_replicate_sleeps c m N h1, hd]⟩
  · intro s c
    rfl

/-- Claim C3, witness: three consecutive failures leave the delay (and
the last sleep) at `2 ^ 3 = 8` milliseconds. -/
theorem C3_backoff_witness :
    (runController (initCtrl ⟨0⟩) (List.replicate 3 (ReloadOutcome.failure "e"))).delay = 2 ^ 3
  ∧ (runController (initCtrl ⟨0⟩) (List.replicate 3 (ReloadOutcome.failure "e"))).sleeps.getLast?
      = some (2 ^ 3) :=
  C3_backoff_doubles_up_to_63.1 ⟨0⟩ "e" 3 (by decide) (by decide)

/-- Claim C4, counterexample: the claim's concrete input — `GET
/a/b?x=1` with Host `example.com:80` — is answered with status 308
(axum's `Redirect::permanent` builds `StatusCode::PERMANENT_REDIRECT`),
not the status 301 the claim asserts; the `Location` header is the
rewritten absolute URL as claimed. -/
theorem C4_counterexample :
    redirect { pathAndQuery := some ("/a/b?x=1".toList),
               hostHeader := some (strBytes "example.com:80") }
      = HttpResponse.response 308 (some ("https://example.com:443/a/b?x=1".toList))
  ∧ (308 : Nat) ≠ 301 := by
  exact ⟨by decide, by decide⟩

/-- Claim C4 (amended): every request whose Host header is present,
decodes as valid text, and rewrites to a parsable authority is answered
with status 308 Permanent Redirect and the rewritten absolute HTTPS URL
as `Location` (for `GET /a/b?x=1` with Host `example.com:80`:
`https://example.com:443/a/b?x=1`). -/
theorem C4_redirect_permanent (req : Request) (bytes : List Nat) (host : List Char)
    (hh : req.hostHeader = some bytes) (hs : headerToStr bytes = some host)
    (hv : validAuthority (replace80 host) = true) :
    redirect req = HttpResponse.response 308
      (some ("https://".toList ++ replace80 host
        ++ (match req.pathAndQuery with | none => ['/'] | some p => p))) := by
  rw [show ("https://".toList : List Char) = "https".toList ++ "://".toList from rfl,
    List.append_assoc]
  simp [redirect, hh, hs, hv, uriFromParts]

/-- Claim C4, witness: `GET /a/b?x=1` with Host `example.com:80` yields
status 308 and `Location: https://example.com:443/a/b?x=1`. -/
theorem C4_redirect_witness :
    redirect { pathAndQuery := some ("/a/b?x=1".toList),
               hostHeader := some (strBytes "example.com:80") }
      = HttpResponse.response 308 (some ("https://example.com:443/a/b?x=1".toList)) := by
  have h := C4_redirect_permanent
    { pathAndQuery := some ("/a/b?x=1".toList), hostHeader := some (strBytes "example.com:80") }
    (strBytes "example.com:80") ("example.com:80".toList) rfl (by decide) (by decide)
  exact h.trans (by decide)

/-- Claim C5: a redirect request whose Host header is absent, or whose
Host header bytes are not valid text, is answered with status 400 and no
`Location` header — the handler returns normally (no panic), and being a
pure per-request function it cannot affect any other request. -/
theorem C5_missing_host_400 (req : Request)
    (h : req.hostHeader = none
      ∨ ∃ bytes, req.hostHeader = some bytes ∧ headerToStr bytes = none) :
    redirect req = HttpResponse.response 400 none := by
  rcases h with h | ⟨bytes, hb, ht⟩
  · simp [redirect, h]
  · simp [redirect, hb, ht]

/-- Claim C5, witness: a request with no Host header, and a request
whose Host header holds the invisible byte 200, both get a bare 400. -/
theorem C5_missing_host_witness :
    redirect { pathAndQuery := some ("/".toList), hostHeader := none }
      = HttpResponse.response 400 none
  ∧ redirect { pathAndQuery := some ("/".toList), hostHeader := some [200] }
      = HttpResponse.response 400 none :=
  ⟨C5_missing_host_400 _ (Or.inl rfl),
   C5_missing_host_400 _ (Or.inr ⟨[200], rfl, by decide⟩)⟩

/-- Claim C6: the code evaluated at the failing input — a request whose
Host header `a b` is valid header text but, after the rewrite, is not a
parsable authority (the space is rejected by the authority parser).  The
handler hits `.parse().expect("host to be valid")` (src/src/tls.rs line
108) and panics instead of answering 400 as the claim (and the spec's
"invalid components ⇒ 400 Bad Request") requires; the dedicated 400
branch for `Uri::from_parts` is unreachable because the scheme, the
authority and the path-and-query are all present by then. -/
theorem C6_invalid_authority_panics :
    redirect { pathAndQuery := some ("/".toList), hostHeader := some (strBytes "a b") }
      = HttpResponse.panicked "host to be valid"
  ∧ validAuthority (replace80 ("a b".toList)) = false
  ∧ headerToStr (strBytes "a b") = some ("a b".toList) := by
  decide

/-- Claim C7: the authority rewrite performed by the redirect handler is
a literal textual replacement — `replace80`, the handler's rewrite, maps
any host to the spec's "every occurrence of the literal substring 80
replaced by 443" — so `host80.example.com` is corrupted to
`host443.example.com` even though `80` is not a port there (the handler
then answers with that corrupted authority in the `Location` header of
its 308 response). -/
theorem C7_authority_textual_replace :
    (∀ host : List Char, replace80 host = replaceAllSpec ['8', '0'] ['4', '4', '3'] host)
  ∧ redirect { pathAndQuery := some ("/".toList),
               hostHeader := some (strBytes "host80.example.com") }
      = HttpResponse.response 308 (some ("https://host443.example.com/".toList)) :=
  ⟨fun host => replace80_eq_replaceAllSpec host, by decide⟩

/-- Claim C8: `init_http_to_https_redirect` starts the plaintext
listener (bound to port 80) exactly when redirect was requested and the
HTTPS port is 443; when redirect is requested on any other port it
starts nothing, logs the misconfiguration diagnostic and still returns
`Ok(())`, so HTTPS serving continues. -/
theorem C8_redirect_listener_preconditions :
    (∀ (sr : Bool) (port : Nat) (so : Except ServeError Unit),
        (init_http_to_https_redirect sr port so).listenerStarted = (sr && port == 443))
  ∧ (∀ (sr : Bool) (port : Nat) (so : Except ServeError Unit),
        (init_http_to_https_redirect sr port so).boundPort
          = if sr && port == 443 then some 80 else none)
  ∧ (∀ (port : Nat) (so : Except ServeError Unit), port ≠ 443 →
        (init_http_to_https_redirect true port so).listenerStarted = false
      ∧ (init_http_to_https_redirect true port so).diagnosticLogged = true
      ∧ (init_http_to_https_redirect true port so).result = Except.ok ()) := by
  refine ⟨?_, ?_, ?_⟩
  · intro sr port so
    unfold init_http_to_https_redirect
    split_ifs with h1 h2 <;> simp_all
  · intro sr port so
    unfold init_http_to_https_redirect
    split_ifs with h1 h2 <;> simp_all
  · intro port so h
    unfold init_http_to_https_redirect
    split_ifs with h1 h2 <;> simp_all

/-- Claim C8, witness: redirect requested with HTTPS port 8443 — no
listener, diagnostic logged, `Ok(())` returned. -/
theorem C8_redirect_listener_witness :
    (init_http_to_https_redirect true 8443 (Except.ok ())).listenerStarted = false
  ∧ (init_http_to_https_redirect true 8443 (Except.ok ())).diagnosticLogged = true
  ∧ (init_http_to_https_redirect true 8443 (Except.ok ())).result = Except.ok () :=
  C8_redirect_listener_preconditions.2.2 8443 (Except.ok ()) (by decide)

/-- Claim C9: a failed reload attempt is never fatal — the failure
branch leaves the installed TLS context untouched, logs the error and
resubmits a retry signal, and `init_certificate_watch`, once the watcher
construction and both watch registrations have succeeded, finishes with
`Ok` for every sequence of reload outcomes: no arm of the reload loop
returns an error. -/
theorem C9_reload_failure_never_fatal :
    (∀ (s : CtrlState) (m : String),
        (controllerStep s (ReloadOutcome.failure m)).ctx = s.ctx
      ∧ (controllerStep s (ReloadOutcome.failure m)).retryScheduled = true
      ∧ (controllerStep s (ReloadOutcome.failure m)).logged = s.logged ++ [m])
  ∧ (∀ (ctx0 : TlsCtx) (rs : List ReloadOutcome),
        init_certificate_watch (Except.ok ()) (Except.ok ()) (Except.ok ()) ctx0 rs
          = Except.ok (runController (initCtrl ctx0) rs)) :=
  ⟨fun s m => ⟨rfl, rfl, rfl⟩, fun ctx0 rs => rfl⟩

/-- Claim C10: the u64 backoff delay is doubled with no ceiling, so
after 64 consecutive failures it has wrapped to 0 and stays 0 under
every further consecutive failure — each subsequent retry sleeps 0
milliseconds — until a successful reload resets it to 1. -/
theorem C10_delay_wraps_to_zero :
    (∀ (c : TlsCtx) (m : String) (N : Nat), 64 ≤ N →
        (runController (initCtrl c) (List.replicate N (ReloadOutcome.failure m))).delay = 0)
  ∧ (∀ (s : CtrlState) (m : String), s.delay = 0 →
        (controllerStep s (ReloadOutcome.failure m)).delay = 0
      ∧ (controllerStep s (ReloadOutcome.failure m)).sleeps.getLast? = some 0)
  ∧ (∀ (s : CtrlState) (c : TlsCtx), (controllerStep s (ReloadOutcome.success c)).delay = 1) := by
  refine ⟨?_, ?_, fun s c => rfl⟩
  · intro c m N hN
    rw [runController_replicate_delay, delayAfterFailures_eq]
    exact Nat.dvd_iff_mod_eq_zero.mp (by simpa [u64Mod] using pow_dvd_pow 2 hN)
  · intro s m h
    constructor
    · simp [controllerStep, h]
    · simp [controllerStep, h, List.getLast?_concat]

/-- Claim C10, witness: exactly 64 consecutive failures leave the delay
at 0, a 65th failure sleeps 0 milliseconds, and a success resets the
delay to 1. -/
theorem C10_delay_wraps_witness :
    (runController (initCtrl ⟨0⟩) (List.replicate 64 (ReloadOutcome.failure "bad pem"))).delay = 0
  ∧ (controllerStep ⟨0, ⟨0⟩, [], [], true⟩ (ReloadOutcome.failure "bad pem")).delay = 0 :=
  ⟨C10_delay_wraps_to_zero.1 ⟨0⟩ "bad pem" 64 (by decide),
   (C10_delay_wraps_to_zero.2.1 _ "bad pem" rfl).1⟩

end Serve
